import Mathlib

/-!
Verification of the voice-conversation control logic of the repository.

Two voice surfaces implement the dialogue controller:
* `VI` models the `VoiceInterface` component (src/unnamed/part_003):
  single-shot speech recognition, a conversation log with a mutable
  "Processing your request..." placeholder entry, markdown sanitization
  before synthesis, and a conversation-context window in the request body.
* `RTV` models the `RealTimeVoiceChat` component
  (src/frontend/src/components/AgentStatusIndicator.tsx, second document):
  continuous recognition, an `isProcessing` dispatch guard, a 500 ms
  auto-resume timer scheduled from the utterance `onend` handler, and no
  text sanitization.

Both are embedded as event-step functions `step : State → Event → State ×
List Cmd` over explicit state records; `Cmd` records the commands the
controller issues to the capture/playback adapters and the backend.
React `useState` updates are modelled as immediate state updates (the host
runtime serializes all handlers, spec §5); the stale-closure reads that
matter are preserved — in particular the request body is built from the
conversation value captured *before* the current cycle's entries are
appended, exactly as the fetch closure does in the source.
-/

/-! ### JavaScript string helpers -/

/-- Whitespace as matched by JavaScript `\s` (ASCII part; the source strings
never contain the exotic unicode spaces). -/
def isWsJS (c : Char) : Bool :=
  c = ' ' || c = '\t' || c = '\n' || c = '\r' || c = '\x0b' || c = '\x0c'

/-- JavaScript `String.prototype.trim`: drop leading and trailing whitespace. -/
def jsTrimChars (l : List Char) : List Char :=
  ((l.dropWhile isWsJS).reverse.dropWhile isWsJS).reverse

/-- `text.trim()` on strings. -/
def jsTrimStr (s : String) : String :=
  String.mk (jsTrimChars s.data)

/-- JavaScript `a || b` for strings: the empty string is falsy. -/
def jsOr (x : Option String) (d : String) : String :=
  match x with
  | none => d
  | some s => if s = "" then d else s

/-- `list.slice(-n)`: the last `n` elements (all of them when fewer). -/
def lastN (n : Nat) (l : List α) : List α :=
  l.drop (l.length - n)

/-! ### The `cleanText` sanitization pipeline of `VoiceInterface.speakText`

Each scanner mirrors one global regex replace of the source, including the
lazy-group semantics (`.*?` matches the shortest newline-free inner text)
and the advance-by-one-character behaviour when a match attempt fails.
The scanners recurse on a fuel argument; every step consumes at least one
input character, so fuel `length + 1` makes the fuel bound unreachable. -/

/-- Find the first occurrence of delimiter `d` in the list, with no newline
before it (JS `.` does not match `\n`): returns the text before the
delimiter and the text after it. -/
def splitAtSeq (d : List Char) : List Char → Option (List Char × List Char)
  | [] => none
  | c :: cs =>
    if d.isPrefixOf (c :: cs) then some ([], (c :: cs).drop d.length)
    else if c = '\n' then none
    else (splitAtSeq d cs).map (fun p => (c :: p.1, p.2))

/-- One global replace of `α(.*?)α` by the inner group, for a delimiter
`d0 :: dr` (used for `**`, `*` and the backtick). -/
def stripPairF (d0 : Char) (dr : List Char) : Nat → List Char → List Char
  | 0, cs => cs
  | _ + 1, [] => []
  | f + 1, c :: cs =>
    if (d0 :: dr).isPrefixOf (c :: cs) then
      match splitAtSeq (d0 :: dr) ((c :: cs).drop (d0 :: dr).length) with
      | some (inner, post) => inner ++ stripPairF d0 dr f post
      | none => c :: stripPairF d0 dr f cs
    else c :: stripPairF d0 dr f cs

/-- Global replace of the header regex (one to six hashes followed by a
whitespace character) by the empty string. -/
def stripHeadersF : Nat → List Char → List Char
  | 0, cs => cs
  | _ + 1, [] => []
  | f + 1, c :: cs =>
    if c = '#' then
      let run := 1 + (cs.takeWhile (fun x => x = '#')).length
      if run ≤ 6 then
        match (c :: cs).drop run with
        | w :: rest => if isWsJS w then stripHeadersF f rest
                       else c :: stripHeadersF f cs
        | [] => c :: stripHeadersF f cs
      else c :: stripHeadersF f cs
    else c :: stripHeadersF f cs

/-- Global replace of each maximal run of newlines by a period and a space. -/
def nlToDotsF : Nat → List Char → List Char
  | 0, cs => cs
  | _ + 1, [] => []
  | f + 1, c :: cs =>
    if c = '\n' then '.' :: ' ' :: nlToDotsF f (cs.dropWhile (fun x => x = '\n'))
    else c :: nlToDotsF f cs

/-- Global replace of each maximal whitespace run by one space. -/
def normSpacesF : Nat → List Char → List Char
  | 0, _ => []
  | _ + 1, [] => []
  | f + 1, c :: cs =>
    if isWsJS c then ' ' :: normSpacesF f (cs.dropWhile isWsJS)
    else c :: normSpacesF f cs

/-- The full cleaning chain of `VoiceInterface.speakText`: strip `**bold**`,
`*italic*`, backtick code spans and markdown headers, turn newline runs into
sentence breaks, collapse whitespace, trim. -/
def cleanChars (cs : List Char) : List Char :=
  let a1 := stripPairF '*' ['*'] (cs.length + 1) cs
  let a2 := stripPairF '*' [] (a1.length + 1) a1
  let a3 := stripPairF '`' [] (a2.length + 1) a2
  let a4 := stripHeadersF (a3.length + 1) a3
  let a5 := nlToDotsF (a4.length + 1) a4
  let a6 := normSpacesF (a5.length + 1) a5
  jsTrimChars a6

/-- `cleanText` on strings. -/
def cleanText (s : String) : String :=
  String.mk (cleanChars s.data)

/-! ### Shared data model -/

/-- Who produced an utterance; the `'ai'` tag of `RealTimeVoiceChat` is the
assistant. -/
inductive Speaker
  | user
  | assistant
deriving DecidableEq, Repr

/-- One element of `conversation_context`: `{ role, content }`. -/
structure CtxMsg where
  role : String
  content : String
deriving DecidableEq, Repr

/-- The JSON body of the `POST /api/agents/coordinate` request.  Optional
fields model JSON keys that only one of the two surfaces emits:
`VoiceInterface` sends `conversation_context` (and no `real_time`),
`RealTimeVoiceChat` sends `real_time: true` (and no `conversation_context`). -/
structure RequestBody where
  task : String
  session_id : String
  input_method : String
  conversation_context : Option (List CtxMsg)
  real_time : Option Bool
  agents : List String
deriving DecidableEq, Repr

/-- The parsed JSON response: `result.results?.summary` and `result.summary`,
`none` when the key is absent. -/
structure BackendResp where
  resultsSummary : Option String
  summary : Option String
deriving DecidableEq, Repr

/-- Commands the controller issues to its adapters and the backend. -/
inductive Cmd
  | startCapture
  | stopCapture
  | cancelSpeech
  | dispatch (body : RequestBody)
  | speak (text : String)
deriving DecidableEq, Repr

/-! ### The `VoiceInterface` surface (src/unnamed/part_003) -/

namespace VI

/-- A `ConversationEntry`.  The source uses `user-${Date.now()}` /
`assistant-${Date.now()}` string ids, relied upon to be distinct; they are
modelled by a monotone counter.  Timestamps are not inspected by any logic
and are omitted. -/
structure Entry where
  id : Nat
  speaker : Speaker
  text : String
  processing : Bool
deriving DecidableEq, Repr

/-- The component state.  `captureFinalDone` is adapter-side bookkeeping for
`recognition.continuous = false`: a single-shot recognition session delivers
at most one final result (spec §4.2: `onInterim` zero or more times, then one
`onFinal` or `onEnd`).  `pending` holds the placeholder-entry ids of the
in-flight fetches, in dispatch order. -/
structure State where
  sessionId : String
  isListening : Bool
  isProcessing : Bool
  isSpeaking : Bool
  captureFinalDone : Bool
  currentTranscript : String
  conversation : List Entry
  nextId : Nat
  pending : List Nat
  error : String
  permissionGranted : Bool
  hasVoice : Bool
deriving DecidableEq, Repr

/-- Initial state: nothing active, empty log, no voice selected yet. -/
def init (sid : String) : State :=
  { sessionId := sid, isListening := false, isProcessing := false
    isSpeaking := false, captureFinalDone := false, currentTranscript := ""
    conversation := [], nextId := 0, pending := [], error := ""
    permissionGranted := false, hasVoice := false }

/-- Events: user actions, adapter callbacks, fetch completions. -/
inductive Ev
  | voicesLoaded
  | userStart (micOk : Bool)
  | interim (t : String)
  | final (t : String)
  | captureEnd
  | captureError (kind : String)
  | responseOk (r : BackendResp)
  | responseErr (msg : String)
  | userStopListening
  | userStopSpeaking
  | clear
  | speakEnd
  | speakError
deriving DecidableEq, Repr

/-- `conversation.slice(-4).map(c => ({role, content}))`. -/
def ctxOf (conv : List Entry) : List CtxMsg :=
  (lastN 4 conv).map fun e =>
    { role := if e.speaker = Speaker.user then "user" else "assistant"
      content := e.text }

/-- The fetch body of `processUserInput`.  `conv` is the conversation value
captured by the closure, i.e. the log *before* this cycle's entries are
appended. -/
def requestBody (sid : String) (conv : List Entry) (t : String) : RequestBody :=
  { task := t, session_id := sid, input_method := "voice"
    conversation_context := some (ctxOf conv), real_time := none
    agents := ["researcher", "analyzer"] }

/-- `result.results?.summary || result.summary || 'I processed your request
successfully.'`. -/
def aiResponse (r : BackendResp) : String :=
  jsOr r.resultsSummary (jsOr r.summary "I processed your request successfully.")

/-- `speakText`: no-op without a synthesizer voice or for blank text;
otherwise cancel any ongoing speech and speak the sanitized text
(`setIsSpeaking(true)` is issued synchronously). -/
def speakText (s : State) (t : String) : State × List Cmd :=
  if s.hasVoice = true ∧ jsTrimStr t ≠ "" then
    ({ s with isSpeaking := true }, [Cmd.cancelSpeech, Cmd.speak (cleanText t)])
  else (s, [])

/-- `processUserInput`: append the user entry and the
"Processing your request..." placeholder, set the processing flag and
dispatch the request.  It does not stop the recognizer and has no
`isProcessing` guard of its own. -/
def processUserInput (s : State) (t : String) : State × List Cmd :=
  if jsTrimStr t = "" then (s, [])
  else
    ({ s with
        conversation := s.conversation ++
          [{ id := s.nextId, speaker := Speaker.user, text := t, processing := false },
           { id := s.nextId + 1, speaker := Speaker.assistant
             text := "Processing your request...", processing := true }]
        isProcessing := true
        nextId := s.nextId + 2
        pending := s.pending ++ [s.nextId + 1] },
     [Cmd.dispatch (requestBody s.sessionId s.conversation t)])

/-- The error text of `recognition.onerror`. -/
def captureErrMsg (kind : String) : String :=
  if kind = "no-speech" then "No speech detected. Please try again."
  else if kind = "audio-capture" then "Microphone not accessible. Please check permissions."
  else if kind = "not-allowed" then "Microphone permission denied. Please allow microphone access."
  else if kind = "network" then "Network error. Please check your connection."
  else "Speech recognition error: " ++ kind

/-- Fetch success: update the placeholder entry with the answer, then speak
it when a voice is selected; `finally` clears the processing flag. -/
def handleResponseOk (s : State) (r : BackendResp) : State × List Cmd :=
  match s.pending with
  | [] => (s, [])
  | pid :: rest =>
    let a := aiResponse r
    let s1 := { s with
        conversation := s.conversation.map fun e =>
          if e.id = pid then { e with text := a, processing := false } else e
        pending := rest }
    let p := if s1.hasVoice = true ∧ a ≠ "" then speakText s1 a else (s1, [])
    ({ p.1 with isProcessing := false }, p.2)

/-- Fetch failure: the error message replaces the placeholder entry, is set
as the status error and is spoken; `finally` clears the processing flag. -/
def handleResponseErr (s : State) (m : String) : State × List Cmd :=
  match s.pending with
  | [] => (s, [])
  | pid :: rest =>
    let em := "Sorry, I encountered an error: " ++ m
    let s1 := { s with
        conversation := s.conversation.map fun e =>
          if e.id = pid then { e with text := em, processing := false } else e
        pending := rest
        error := em }
    let p := if s1.hasVoice = true then speakText s1 em else (s1, [])
    ({ p.1 with isProcessing := false }, p.2)

/-- One event step.  `userStart` merges `startListening` (its guard checks
only `isListening`/`isProcessing`) with the microphone-permission request
and the `onstart` callback; `final`/`interim` are only delivered by an
active single-shot session that has not yet produced its final result. -/
def step (s : State) : Ev → State × List Cmd
  | Ev.voicesLoaded => ({ s with hasVoice := true }, [])
  | Ev.userStart micOk =>
    if s.isListening = true ∨ s.isProcessing = true then (s, [])
    else if micOk = false then
      ({ s with error := "Microphone permission required. Please allow access and try again."
                permissionGranted := false }, [])
    else
      ({ s with permissionGranted := true, error := "", isListening := true
                currentTranscript := "", captureFinalDone := false },
       [Cmd.startCapture])
  | Ev.interim t =>
    if s.isListening = true ∧ s.captureFinalDone = false then
      ({ s with currentTranscript := t }, [])
    else (s, [])
  | Ev.final t =>
    if s.isListening = true ∧ s.captureFinalDone = false then
      if t ≠ "" then
        processUserInput
          { s with captureFinalDone := true, currentTranscript := "" }
          (jsTrimStr t)
      else ({ s with captureFinalDone := true }, [])
    else (s, [])
  | Ev.captureEnd =>
    if s.isListening = true then ({ s with isListening := false }, []) else (s, [])
  | Ev.captureError kind =>
    if s.isListening = true then
      ({ s with isListening := false, error := captureErrMsg kind
                permissionGranted :=
                  if kind = "not-allowed" then false else s.permissionGranted }, [])
    else (s, [])
  | Ev.responseOk r => handleResponseOk s r
  | Ev.responseErr m => handleResponseErr s m
  | Ev.userStopListening =>
    if s.isListening = true then (s, [Cmd.stopCapture]) else (s, [])
  | Ev.userStopSpeaking => ({ s with isSpeaking := false }, [Cmd.cancelSpeech])
  | Ev.clear =>
    ({ s with conversation := [], currentTranscript := "", error := ""
              isSpeaking := false },
     (if s.isListening = true then [Cmd.stopCapture] else []) ++ [Cmd.cancelSpeech])
  | Ev.speakEnd =>
    if s.isSpeaking = true then ({ s with isSpeaking := false }, []) else (s, [])
  | Ev.speakError =>
    if s.isSpeaking = true then
      ({ s with isSpeaking := false, error := "Text-to-speech error occurred" }, [])
    else (s, [])

/-- Run a sequence of events, collecting all emitted commands. -/
def run (s : State) : List Ev → State × List Cmd
  | [] => (s, [])
  | e :: es =>
    let p := step s e
    let q := run p.1 es
    (q.1, p.2 ++ q.2)

/-- The at-most-one-in-flight invariant, together with the facts that make
it inductive: the processing flag tracks exactly one pending fetch, and
while processing no active capture session can still deliver a final. -/
def Inv (s : State) : Prop :=
  (s.isProcessing = true →
    s.pending.length = 1 ∧ (s.isListening = false ∨ s.captureFinalDone = true)) ∧
  (s.isProcessing = false → s.pending = [])

end VI

/-! ### The `RealTimeVoiceChat` surface
(src/frontend/src/components/AgentStatusIndicator.tsx, second document) -/

namespace RTV

/-- A conversation message (`type: 'user' | 'ai'`, text; timestamps are not
inspected and omitted). -/
structure Msg where
  speaker : Speaker
  text : String
deriving DecidableEq, Repr

/-- The component state.  `pending` counts in-flight fetches; `resumeTimer`
records a scheduled 500 ms auto-resume from the utterance `onend` handler. -/
structure State where
  sessionId : String
  isListening : Bool
  isProcessing : Bool
  isSpeaking : Bool
  transcript : String
  aiResponse : String
  conversation : List Msg
  pending : Nat
  resumeTimer : Bool
  error : String
deriving DecidableEq, Repr

/-- Initial state. -/
def init (sid : String) : State :=
  { sessionId := sid, isListening := false, isProcessing := false
    isSpeaking := false, transcript := "", aiResponse := ""
    conversation := [], pending := 0, resumeTimer := false, error := "" }

/-- Events: user actions, adapter callbacks, fetch completions and the
scheduled-resume timer firing. -/
inductive Ev
  | userStart
  | interim
  | finalResult (t : String)
  | captureEnd
  | captureError (m : String)
  | responseOk (r : BackendResp)
  | responseErr (m : String)
  | speakEnd
  | speakError
  | timerFire
  | userStopListening
  | userStopSpeaking
  | clearChat
deriving DecidableEq, Repr

/-- The fetch body of `processVoiceInput`: `context` carries `session_id`,
`input_method: 'voice'` and `real_time: true` — no conversation context. -/
def requestBody (sid : String) (t : String) : RequestBody :=
  { task := t, session_id := sid, input_method := "voice"
    conversation_context := none, real_time := some true
    agents := ["researcher", "analyzer"] }

/-- `result.results?.summary || result.summary || 'I processed your request
successfully!'`. -/
def aiText (r : BackendResp) : String :=
  jsOr r.resultsSummary (jsOr r.summary "I processed your request successfully!")

/-- `speakText`: for non-blank text, cancel ongoing speech and hand the text
to the synthesizer *unmodified* (no sanitization in this surface). -/
def speakText (s : State) (t : String) : State × List Cmd :=
  if jsTrimStr t ≠ "" then
    ({ s with isSpeaking := true }, [Cmd.cancelSpeech, Cmd.speak t])
  else (s, [])

/-- One event step.  `finalResult` merges `recognition.onresult` (which sets
the transcript, then calls `processVoiceInput`) with `processVoiceInput`
itself: blank or already-processing input is ignored; otherwise the
processing flag is set, the recognizer is stopped, the user message is
appended and the request dispatched. -/
def step (s : State) : Ev → State × List Cmd
  | Ev.userStart =>
    if s.isListening = true ∨ s.isProcessing = true then (s, [])
    else
      ({ s with transcript := "", error := "", isListening := true },
       [Cmd.startCapture])
  | Ev.interim => (s, [])
  | Ev.finalResult t =>
    if s.isListening = true then
      if jsTrimStr t = "" ∨ s.isProcessing = true then
        ({ s with transcript := t }, [])
      else
        ({ s with transcript := t, isProcessing := true
                  conversation := s.conversation ++
                    [{ speaker := Speaker.user, text := t }]
                  pending := s.pending + 1 },
         (if s.isListening = true then [Cmd.stopCapture] else []) ++
           [Cmd.dispatch (requestBody s.sessionId t)])
    else (s, [])
  | Ev.captureEnd =>
    if s.isListening = true then ({ s with isListening := false }, []) else (s, [])
  | Ev.captureError m =>
    if s.isListening = true then
      ({ s with isListening := false
                error := "Speech recognition error: " ++ m }, [])
    else (s, [])
  | Ev.responseOk r =>
    if s.pending = 0 then (s, [])
    else
      let a := aiText r
      let s1 := { s with aiResponse := a
                         conversation := s.conversation ++
                           [{ speaker := Speaker.assistant, text := a }]
                         pending := s.pending - 1 }
      let p := speakText s1 a
      ({ p.1 with isProcessing := false }, p.2)
  | Ev.responseErr m =>
    if s.pending = 0 then (s, [])
    else
      let em := "Sorry, I encountered an error: " ++ m
      let s1 := { s with error := em, pending := s.pending - 1 }
      let p := speakText s1 em
      ({ p.1 with isProcessing := false }, p.2)
  | Ev.speakEnd =>
    if s.isSpeaking = true then
      ({ s with isSpeaking := false, resumeTimer := true }, [])
    else (s, [])
  | Ev.speakError =>
    if s.isSpeaking = true then ({ s with isSpeaking := false }, []) else (s, [])
  | Ev.timerFire =>
    if s.resumeTimer = true then
      if s.isProcessing = true then ({ s with resumeTimer := false }, [])
      else if s.isListening = true then ({ s with resumeTimer := false }, [])
      else
        ({ s with resumeTimer := false, isListening := true
                  transcript := "", error := "" },
         [Cmd.startCapture])
    else (s, [])
  | Ev.userStopListening =>
    if s.isListening = true then (s, [Cmd.stopCapture]) else (s, [])
  | Ev.userStopSpeaking => ({ s with isSpeaking := false }, [Cmd.cancelSpeech])
  | Ev.clearChat => ({ s with conversation := [] }, [])

/-- Run a sequence of events, collecting all emitted commands. -/
def run (s : State) : List Ev → State × List Cmd
  | [] => (s, [])
  | e :: es =>
    let p := step s e
    let q := run p.1 es
    (q.1, p.2 ++ q.2)

/-- At-most-one-in-flight: the processing flag tracks exactly one pending
fetch. -/
def Inv (s : State) : Prop :=
  (s.isProcessing = true → s.pending = 1) ∧
  (s.isProcessing = false → s.pending = 0)

end RTV

/-! ### Helper lemmas -/

theorem jsOr_ne_empty (x : Option String) (d : String) (hd : d ≠ "") :
    jsOr x d ≠ "" := by
  unfold jsOr
  cases x with
  | none => exact hd
  | some s =>
    by_cases hs : s = ""
    · simp [hs, hd]
    · simp [hs]

theorem jsOr_of_getD_empty (x : Option String) (d : String)
    (h : x.getD "" = "") : jsOr x d = d := by
  unfold jsOr
  cases x with
  | none => rfl
  | some s => simp_all

theorem aiResponse_ne_empty (r : BackendResp) : VI.aiResponse r ≠ "" := by
  unfold VI.aiResponse
  exact jsOr_ne_empty _ _ (jsOr_ne_empty _ _ (by decide))

theorem aiText_ne_empty (r : BackendResp) : RTV.aiText r ≠ "" := by
  unfold RTV.aiText
  exact jsOr_ne_empty _ _ (jsOr_ne_empty _ _ (by decide))

theorem mem_dropWhile_of_not (p : α → Bool) (l : List α) (a : α)
    (ha : a ∈ l) (hp : p a = false) : a ∈ l.dropWhile p := by
  induction l with
  | nil => cases ha
  | cons b bs ih =>
    rw [List.dropWhile_cons]
    by_cases hb : p b = true
    · simp only [hb, if_true]
      rcases List.mem_cons.mp ha with h | h
      · subst h; rw [hp] at hb; cases hb
      · exact ih h
    · simp only [hb, if_false]
      exact ha

theorem jsTrimChars_ne_nil (l : List Char) (c : Char)
    (hc : c ∈ l) (hw : isWsJS c = false) : jsTrimChars l ≠ [] := by
  unfold jsTrimChars
  intro h
  have h1 : c ∈ l.dropWhile isWsJS := mem_dropWhile_of_not _ _ _ hc hw
  have h2 : c ∈ (l.dropWhile isWsJS).reverse := List.mem_reverse.mpr h1
  have h3 : c ∈ (l.dropWhile isWsJS).reverse.dropWhile isWsJS :=
    mem_dropWhile_of_not _ _ _ h2 hw
  rw [List.reverse_eq_nil_iff] at h
  rw [h] at h3
  cases h3

theorem stringAppendData (a b : String) : (a ++ b).data = a.data ++ b.data := rfl

theorem jsTrimStr_ne_of_mem (s : String) (c : Char)
    (hc : c ∈ s.data) (hw : isWsJS c = false) : jsTrimStr s ≠ "" := by
  unfold jsTrimStr
  intro h
  have hd := congrArg String.data h
  simp only at hd
  exact jsTrimChars_ne_nil s.data c hc hw hd

theorem jsTrimStr_errMsg_ne (m : String) :
    jsTrimStr ("Sorry, I encountered an error: " ++ m) ≠ "" := by
  apply jsTrimStr_ne_of_mem _ 'S'
  · rw [stringAppendData]
    exact List.mem_append_left _ (by decide)
  · decide

theorem normSpacesF_no_nl (f : Nat) (cs : List Char) :
    '\n' ∉ normSpacesF f cs := by
  induction f generalizing cs with
  | zero => simp [normSpacesF]
  | succ f ih =>
    cases cs with
    | nil => simp [normSpacesF]
    | cons c cs =>
      rw [normSpacesF]
      by_cases hc : isWsJS c = true
      · simp only [hc, if_true]
        intro hmem
        rcases List.mem_cons.mp hmem with h | h
        · exact absurd h (by decide)
        · exact ih _ h
      · simp only [hc, if_false]
        intro hmem
        rcases List.mem_cons.mp hmem with h | h
        · subst h; exact hc (by decide)
        · exact ih _ h

theorem mem_jsTrimChars (l : List Char) (a : Char)
    (h : a ∈ jsTrimChars l) : a ∈ l := by
  unfold jsTrimChars at h
  rw [List.mem_reverse] at h
  have h2 := (List.dropWhile_sublist isWsJS).mem h
  rw [List.mem_reverse] at h2
  exact (List.dropWhile_sublist isWsJS).mem h2

theorem cleanText_no_newline (s : String) : '\n' ∉ (cleanText s).data := by
  intro h
  have h2 : '\n' ∈ cleanChars s.data := h
  unfold cleanChars at h2
  exact normSpacesF_no_nl _ _ (mem_jsTrimChars _ _ h2)

theorem VI_speakText_conversation (s : VI.State) (t : String) :
    (VI.speakText s t).1.conversation = s.conversation := by
  unfold VI.speakText; split_ifs <;> rfl

theorem VI_speakText_pending (s : VI.State) (t : String) :
    (VI.speakText s t).1.pending = s.pending := by
  unfold VI.speakText; split_ifs <;> rfl

theorem VI_speakText_isProcessing (s : VI.State) (t : String) :
    (VI.speakText s t).1.isProcessing = s.isProcessing := by
  unfold VI.speakText; split_ifs <;> rfl

theorem VI_speakText_isListening (s : VI.State) (t : String) :
    (VI.speakText s t).1.isListening = s.isListening := by
  unfold VI.speakText; split_ifs <;> rfl

theorem VI_speakText_captureFinalDone (s : VI.State) (t : String) :
    (VI.speakText s t).1.captureFinalDone = s.captureFinalDone := by
  unfold VI.speakText; split_ifs <;> rfl

theorem RTV_speakText_pending (s : RTV.State) (t : String) :
    (RTV.speakText s t).1.pending = s.pending := by
  unfold RTV.speakText; split_ifs <;> rfl

theorem RTV_speakText_isProcessing (s : RTV.State) (t : String) :
    (RTV.speakText s t).1.isProcessing = s.isProcessing := by
  unfold RTV.speakText; split_ifs <;> rfl

theorem RTV_speakText_conversation (s : RTV.State) (t : String) :
    (RTV.speakText s t).1.conversation = s.conversation := by
  unfold RTV.speakText; split_ifs <;> rfl

theorem RTV_speakText_isListening (s : RTV.State) (t : String) :
    (RTV.speakText s t).1.isListening = s.isListening := by
  unfold RTV.speakText; split_ifs <;> rfl

/-- Each event preserves the at-most-one-in-flight invariant of
`RealTimeVoiceChat`: the `isProcessing` guard in `processVoiceInput` is what
prevents a second dispatch. -/
theorem RTV_step_inv (s : RTV.State) (e : RTV.Ev) (h : RTV.Inv s) :
    RTV.Inv (RTV.step s e).1 := by
  obtain ⟨h1, h2⟩ := h
  cases e with
  | userStart =>
    simp only [RTV.step]
    split_ifs <;> exact ⟨h1, h2⟩
  | interim => exact ⟨h1, h2⟩
  | finalResult t =>
    simp only [RTV.step]
    split_ifs with hL hG
    · exact ⟨h1, h2⟩
    · refine ⟨fun _ => ?_, fun hp => ?_⟩
      · have hpf : s.isProcessing = false := by
          cases hb : s.isProcessing
          · rfl
          · exact absurd (Or.inr hb) hG
        simp [h2 hpf]
      · simp at hp
    · exact ⟨h1, h2⟩
  | captureEnd =>
    simp only [RTV.step]
    split_ifs <;> exact ⟨h1, h2⟩
  | captureError m =>
    simp only [RTV.step]
    split_ifs <;> exact ⟨h1, h2⟩
  | responseOk r =>
    simp only [RTV.step]
    split_ifs with hp0
    · exact ⟨h1, h2⟩
    · refine ⟨fun hp => ?_, fun _ => ?_⟩
      · simp at hp
      · have hpt : s.isProcessing = true := by
          cases hb : s.isProcessing
          · exact absurd (h2 hb) hp0
          · rfl
        have hone := h1 hpt
        simp only [RTV_speakText_pending]
        omega
  | responseErr m =>
    simp only [RTV.step]
    split_ifs with hp0
    · exact ⟨h1, h2⟩
    · refine ⟨fun hp => ?_, fun _ => ?_⟩
      · simp at hp
      · have hpt : s.isProcessing = true := by
          cases hb : s.isProcessing
          · exact absurd (h2 hb) hp0
          · rfl
        have hone := h1 hpt
        simp only [RTV_speakText_pending]
        omega
  | speakEnd =>
    simp only [RTV.step]
    split_ifs <;> exact ⟨h1, h2⟩
  | speakError =>
    simp only [RTV.step]
    split_ifs <;> exact ⟨h1, h2⟩
  | timerFire =>
    simp only [RTV.step]
    split_ifs <;> exact ⟨h1, h2⟩
  | userStopListening =>
    simp only [RTV.step]
    split_ifs <;> exact ⟨h1, h2⟩
  | userStopSpeaking => exact ⟨h1, h2⟩
  | clearChat => exact ⟨h1, h2⟩

/-- The invariant holds along every run of `RealTimeVoiceChat`. -/
theorem RTV_run_inv (es : List RTV.Ev) (s : RTV.State) (h : RTV.Inv s) :
    RTV.Inv (RTV.run s es).1 := by
  induction es generalizing s with
  | nil => exact h
  | cons e es ih => exact ih _ (RTV_step_inv s e h)

/-- Each event preserves the in-flight invariant of `VoiceInterface`:
`processUserInput` has no guard of its own, but a single-shot recognition
session delivers at most one final result and cannot be restarted while
processing, so at most one fetch is ever outstanding. -/
theorem VI_step_inv (s : VI.State) (e : VI.Ev) (h : VI.Inv s) :
    VI.Inv (VI.step s e).1 := by
  obtain ⟨h1, h2⟩ := h
  cases e with
  | voicesLoaded => exact ⟨h1, h2⟩
  | userStart micOk =>
    simp only [VI.step]
    split_ifs with hGuard hMic
    · exact ⟨h1, h2⟩
    · exact ⟨h1, h2⟩
    · exact ⟨fun hp => absurd (Or.inr hp) hGuard, fun hp => h2 hp⟩
  | interim t =>
    simp only [VI.step]
    split_ifs <;> exact ⟨h1, h2⟩
  | final t =>
    simp only [VI.step, VI.processUserInput]
    split_ifs with hA hT hE
    · exact ⟨fun hp => ⟨(h1 hp).1, Or.inr rfl⟩, h2⟩
    · have hpf : s.isProcessing = false := by
        cases hb : s.isProcessing
        · rfl
        · rcases (h1 hb).2 with hx | hx
          · rw [hA.1] at hx; exact Bool.noConfusion hx
          · rw [hA.2] at hx; exact Bool.noConfusion hx
      refine ⟨fun _ => ?_, fun hp => by simp at hp⟩
      refine ⟨?_, Or.inr rfl⟩
      rw [h2 hpf]
      rfl
    · exact ⟨fun hp => ⟨(h1 hp).1, Or.inr rfl⟩, h2⟩
    · exact ⟨h1, h2⟩
  | captureEnd =>
    simp only [VI.step]
    split_ifs
    · exact ⟨fun hp => ⟨(h1 hp).1, Or.inl rfl⟩, h2⟩
    · exact ⟨h1, h2⟩
  | captureError kind =>
    simp only [VI.step]
    split_ifs with hL hK
    · exact ⟨fun hp => ⟨(h1 hp).1, Or.inl rfl⟩, h2⟩
    · exact ⟨fun hp => ⟨(h1 hp).1, Or.inl rfl⟩, h2⟩
    · exact ⟨h1, h2⟩
  | responseOk r =>
    cases hp : s.pending with
    | nil =>
      simp only [VI.step, VI.handleResponseOk, hp]
      exact ⟨h1, h2⟩
    | cons pid rest =>
      simp only [VI.step, VI.handleResponseOk, hp]
      refine ⟨fun hco => by simp at hco, fun _ => ?_⟩
      have hpt : s.isProcessing = true := by
        cases hb : s.isProcessing
        · rw [h2 hb] at hp; cases hp
        · rfl
      have hlen := (h1 hpt).1
      rw [hp] at hlen
      simp only [List.length_cons] at hlen
      have hrest : rest = [] := List.length_eq_zero.mp (by omega)
      split_ifs with hv
      · simp [VI_speakText_pending, hrest]
      · simp [hrest]
  | responseErr m =>
    cases hp : s.pending with
    | nil =>
      simp only [VI.step, VI.handleResponseErr, hp]
      exact ⟨h1, h2⟩
    | cons pid rest =>
      simp only [VI.step, VI.handleResponseErr, hp]
      refine ⟨fun hco => by simp at hco, fun _ => ?_⟩
      have hpt : s.isProcessing = true := by
        cases hb : s.isProcessing
        · rw [h2 hb] at hp; cases hp
        · rfl
      have hlen := (h1 hpt).1
      rw [hp] at hlen
      simp only [List.length_cons] at hlen
      have hrest : rest = [] := List.length_eq_zero.mp (by omega)
      split_ifs with hv
      · simp [VI_speakText_pending, hrest]
      · simp [hrest]
  | userStopListening =>
    simp only [VI.step]
    split_ifs <;> exact ⟨h1, h2⟩
  | userStopSpeaking => exact ⟨h1, h2⟩
  | clear => exact ⟨h1, h2⟩
  | speakEnd =>
    simp only [VI.step]
    split_ifs <;> exact ⟨h1, h2⟩
  | speakError =>
    simp only [VI.step]
    split_ifs <;> exact ⟨h1, h2⟩

/-- The invariant holds along every run of `VoiceInterface`. -/
theorem VI_run_inv (es : List VI.Ev) (s : VI.State) (h : VI.Inv s) :
    VI.Inv (VI.run s es).1 := by
  induction es generalizing s with
  | nil => exact h
  | cons e es ih => exact ih _ (VI_step_inv s e h)

theorem VI_run_append (s : VI.State) (as bs : List VI.Ev) :
    VI.run s (as ++ bs) =
      ((VI.run (VI.run s as).1 bs).1,
       (VI.run s as).2 ++ (VI.run (VI.run s as).1 bs).2) := by
  induction as generalizing s with
  | nil => simp [VI.run]
  | cons e as ih =>
    simp [List.cons_append, VI.run, ih, List.append_assoc]

theorem RTV_run_append (s : RTV.State) (as bs : List RTV.Ev) :
    RTV.run s (as ++ bs) =
      ((RTV.run (RTV.run s as).1 bs).1,
       (RTV.run s as).2 ++ (RTV.run (RTV.run s as).1 bs).2) := by
  induction as generalizing s with
  | nil => simp [RTV.run]
  | cons e as ih =>
    simp [List.cons_append, RTV.run, ih, List.append_assoc]

/-- Interim transcripts only update the live-transcript display of
`VoiceInterface`; no commands are issued and no other field changes. -/
theorem VI_run_interims (ts : List String) (s : VI.State)
    (hL : s.isListening = true) (hF : s.captureFinalDone = false) :
    VI.run s (ts.map VI.Ev.interim) =
      ({ s with currentTranscript := ts.foldl (fun _ x => x) s.currentTranscript },
       []) := by
  induction ts generalizing s with
  | nil => simp [VI.run]
  | cons x ts ih =>
    have hstep : VI.step s (VI.Ev.interim x) = ({ s with currentTranscript := x }, []) := by
      simp [VI.step, hL, hF]
    simp only [List.map_cons, VI.run, hstep]
    rw [ih { s with currentTranscript := x } hL hF]
    simp

/-- `RealTimeVoiceChat.onresult` ignores interim-only events entirely. -/
theorem RTV_run_interims (n : Nat) (s : RTV.State) :
    RTV.run s (List.replicate n RTV.Ev.interim) = (s, []) := by
  induction n with
  | zero => simp [RTV.run]
  | succ n ih =>
    simp only [List.replicate_succ, RTV.run, RTV.step]
    rw [ih]
    simp

/-- Evaluation of a final transcript in `VoiceInterface`: the user entry and
the processing placeholder are appended and the request dispatched — with no
`stopCapture` command and no `isProcessing` guard. -/
theorem VI_step_final_eq (s : VI.State) (t : String)
    (hL : s.isListening = true) (hF : s.captureFinalDone = false)
    (ht : jsTrimStr t = t) (hne : t ≠ "") :
    VI.step s (VI.Ev.final t) =
      ({ s with captureFinalDone := true, currentTranscript := ""
                conversation := s.conversation ++
                  [{ id := s.nextId, speaker := Speaker.user, text := t
                     processing := false },
                   { id := s.nextId + 1, speaker := Speaker.assistant
                     text := "Processing your request...", processing := true }]
                isProcessing := true
                nextId := s.nextId + 2
                pending := s.pending ++ [s.nextId + 1] },
       [Cmd.dispatch (VI.requestBody s.sessionId s.conversation t)]) := by
  simp only [VI.step, VI.processUserInput]
  rw [if_pos ⟨hL, hF⟩, if_pos hne, ht, ht, if_neg hne]

theorem VI_step_captureEnd_eq (s : VI.State) (hL : s.isListening = true) :
    VI.step s VI.Ev.captureEnd = ({ s with isListening := false }, []) := by
  simp [VI.step, hL]

theorem VI_responseOk_conversation (s : VI.State) (r : BackendResp)
    (pid : Nat) (rest : List Nat) (hp : s.pending = pid :: rest) :
    (VI.step s (VI.Ev.responseOk r)).1.conversation =
      s.conversation.map fun e =>
        if e.id = pid then { e with text := VI.aiResponse r, processing := false }
        else e := by
  simp only [VI.step, VI.handleResponseOk, hp]
  split_ifs with hv
  · simp [VI_speakText_conversation]
  · simp

theorem VI_responseOk_isProcessing (s : VI.State) (r : BackendResp) :
    (VI.step s (VI.Ev.responseOk r)).1.isProcessing = false ∨
      (VI.step s (VI.Ev.responseOk r)).1 = s := by
  cases hp : s.pending with
  | nil => right; simp [VI.step, VI.handleResponseOk, hp]
  | cons pid rest =>
    left
    simp only [VI.step, VI.handleResponseOk, hp]

theorem VI_responseOk_isProcessing_of_pending (s : VI.State) (r : BackendResp)
    (pid : Nat) (rest : List Nat) (hp : s.pending = pid :: rest) :
    (VI.step s (VI.Ev.responseOk r)).1.isProcessing = false := by
  simp only [VI.step, VI.handleResponseOk, hp]

theorem VI_responseOk_cmds (s : VI.State) (r : BackendResp)
    (pid : Nat) (rest : List Nat) (hp : s.pending = pid :: rest)
    (hv : s.hasVoice = true) (hjt : jsTrimStr (VI.aiResponse r) ≠ "") :
    (VI.step s (VI.Ev.responseOk r)).2 =
      [Cmd.cancelSpeech, Cmd.speak (cleanText (VI.aiResponse r))] := by
  simp only [VI.step, VI.handleResponseOk, hp]
  rw [if_pos ⟨hv, aiResponse_ne_empty r⟩]
  simp only [VI.speakText]
  rw [if_pos ⟨hv, hjt⟩]

theorem VI_responseOk_isSpeaking (s : VI.State) (r : BackendResp)
    (pid : Nat) (rest : List Nat) (hp : s.pending = pid :: rest)
    (hv : s.hasVoice = true) (hjt : jsTrimStr (VI.aiResponse r) ≠ "") :
    (VI.step s (VI.Ev.responseOk r)).1.isSpeaking = true := by
  simp only [VI.step, VI.handleResponseOk, hp]
  rw [if_pos ⟨hv, aiResponse_ne_empty r⟩]
  simp only [VI.speakText]
  rw [if_pos ⟨hv, hjt⟩]

theorem VI_responseErr_conversation (s : VI.State) (m : String)
    (pid : Nat) (rest : List Nat) (hp : s.pending = pid :: rest) :
    (VI.step s (VI.Ev.responseErr m)).1.conversation =
      s.conversation.map fun e =>
        if e.id = pid then
          { e with text := "Sorry, I encountered an error: " ++ m
                   processing := false }
        else e := by
  simp only [VI.step, VI.handleResponseErr, hp]
  split_ifs with hv
  · simp [VI_speakText_conversation]
  · simp

theorem VI_responseErr_isProcessing_of_pending (s : VI.State) (m : String)
    (pid : Nat) (rest : List Nat) (hp : s.pending = pid :: rest) :
    (VI.step s (VI.Ev.responseErr m)).1.isProcessing = false := by
  simp only [VI.step, VI.handleResponseErr, hp]

theorem VI_responseErr_cmds (s : VI.State) (m : String)
    (pid : Nat) (rest : List Nat) (hp : s.pending = pid :: rest)
    (hv : s.hasVoice = true) :
    (VI.step s (VI.Ev.responseErr m)).2 =
      [Cmd.cancelSpeech,
       Cmd.speak (cleanText ("Sorry, I encountered an error: " ++ m))] := by
  simp only [VI.step, VI.handleResponseErr, hp]
  rw [if_pos hv]
  simp only [VI.speakText]
  rw [if_pos ⟨hv, jsTrimStr_errMsg_ne m⟩]

/-- Evaluation of a final transcript in `RealTimeVoiceChat` outside of
processing: stop capture first, then dispatch, after appending the user
message. -/
theorem RTV_step_final_eq (s : RTV.State) (t : String)
    (hL : s.isListening = true) (hP : s.isProcessing = false)
    (htne : jsTrimStr t ≠ "") :
    RTV.step s (RTV.Ev.finalResult t) =
      ({ s with transcript := t, isProcessing := true
                conversation := s.conversation ++
                  [{ speaker := Speaker.user, text := t }]
                pending := s.pending + 1 },
       [Cmd.stopCapture, Cmd.dispatch (RTV.requestBody s.sessionId t)]) := by
  have hguard : ¬(jsTrimStr t = "" ∨ s.isProcessing = true) := by
    rintro (hx | hx)
    · exact htne hx
    · rw [hP] at hx; exact Bool.noConfusion hx
  simp only [RTV.step]
  rw [if_pos hL, if_neg hguard, if_pos hL]
  rfl

/-- A final transcript arriving while a request is already in flight is
ignored: only the displayed transcript changes, nothing is dispatched. -/
theorem RTV_step_final_ignored (s : RTV.State) (t : String)
    (hP : s.isProcessing = true) :
    (RTV.step s (RTV.Ev.finalResult t)).1.conversation = s.conversation ∧
      (RTV.step s (RTV.Ev.finalResult t)).1.pending = s.pending ∧
      (RTV.step s (RTV.Ev.finalResult t)).2 = [] := by
  simp only [RTV.step]
  split_ifs with hL hG
  · exact ⟨rfl, rfl, rfl⟩
  · exact absurd (Or.inr hP) hG
  · exact ⟨rfl, rfl, rfl⟩

theorem RTV_step_captureEnd_eq (s : RTV.State) (hL : s.isListening = true) :
    RTV.step s RTV.Ev.captureEnd = ({ s with isListening := false }, []) := by
  simp [RTV.step, hL]

theorem RTV_responseOk_conversation (s : RTV.State) (r : BackendResp)
    (hp : ¬s.pending = 0) :
    (RTV.step s (RTV.Ev.responseOk r)).1.conversation =
      s.conversation ++ [{ speaker := Speaker.assistant, text := RTV.aiText r }] := by
  simp only [RTV.step]
  rw [if_neg hp]
  simp [RTV_speakText_conversation]

theorem RTV_responseOk_isProcessing (s : RTV.State) (r : BackendResp)
    (hp : ¬s.pending = 0) :
    (RTV.step s (RTV.Ev.responseOk r)).1.isProcessing = false := by
  simp only [RTV.step]
  rw [if_neg hp]

theorem RTV_responseOk_cmds (s : RTV.State) (r : BackendResp)
    (hp : ¬s.pending = 0) (hjt : jsTrimStr (RTV.aiText r) ≠ "") :
    (RTV.step s (RTV.Ev.responseOk r)).2 =
      [Cmd.cancelSpeech, Cmd.speak (RTV.aiText r)] := by
  simp only [RTV.step]
  rw [if_neg hp]
  simp only [RTV.speakText]
  rw [if_pos hjt]

theorem RTV_responseOk_isSpeaking (s : RTV.State) (r : BackendResp)
    (hp : ¬s.pending = 0) (hjt : jsTrimStr (RTV.aiText r) ≠ "") :
    (RTV.step s (RTV.Ev.responseOk r)).1.isSpeaking = true := by
  simp only [RTV.step]
  rw [if_neg hp]
  simp only [RTV.speakText]
  rw [if_pos hjt]

/-- On a fetch failure, `RealTimeVoiceChat` leaves the conversation log
unchanged: the error is only displayed and spoken. -/
theorem RTV_responseErr_conversation (s : RTV.State) (m : String)
    (hp : ¬s.pending = 0) :
    (RTV.step s (RTV.Ev.responseErr m)).1.conversation = s.conversation := by
  simp only [RTV.step]
  rw [if_neg hp]
  simp [RTV_speakText_conversation]

theorem RTV_responseErr_isProcessing (s : RTV.State) (m : String)
    (hp : ¬s.pending = 0) :
    (RTV.step s (RTV.Ev.responseErr m)).1.isProcessing = false := by
  simp only [RTV.step]
  rw [if_neg hp]

theorem RTV_responseErr_cmds (s : RTV.State) (m : String)
    (hp : ¬s.pending = 0) :
    (RTV.step s (RTV.Ev.responseErr m)).2 =
      [Cmd.cancelSpeech, Cmd.speak ("Sorry, I encountered an error: " ++ m)] := by
  simp only [RTV.step]
  rw [if_neg hp]
  simp only [RTV.speakText]
  rw [if_pos (jsTrimStr_errMsg_ne m)]

theorem RTV_speakText_error (s : RTV.State) (t : String) :
    (RTV.speakText s t).1.error = s.error := by
  unfold RTV.speakText; split_ifs <;> rfl

theorem RTV_responseErr_error (s : RTV.State) (m : String)
    (hp : ¬s.pending = 0) :
    (RTV.step s (RTV.Ev.responseErr m)).1.error =
      "Sorry, I encountered an error: " ++ m := by
  simp only [RTV.step]
  rw [if_neg hp]
  simp [RTV_speakText_error]

/-- Playback end in `RealTimeVoiceChat` clears the speaking flag and
schedules the 500 ms auto-resume timer. -/
theorem RTV_step_speakEnd_eq (s : RTV.State) (hS : s.isSpeaking = true) :
    RTV.step s RTV.Ev.speakEnd =
      ({ s with isSpeaking := false, resumeTimer := true }, []) := by
  simp [RTV.step, hS]

/-- The scheduled resume fires: guarded only by the processing flag (and the
`startListening` guard); it restarts capture. -/
theorem RTV_timerFire_resume (s : RTV.State) (hT : s.resumeTimer = true)
    (hP : s.isProcessing = false) (hL : s.isListening = false) :
    RTV.step s RTV.Ev.timerFire =
      ({ s with resumeTimer := false, isListening := true
                transcript := "", error := "" },
       [Cmd.startCapture]) := by
  simp only [RTV.step]
  rw [if_pos hT, if_neg (by rw [hP]; exact Bool.noConfusion),
      if_neg (by rw [hL]; exact Bool.noConfusion)]

/-- The scheduled resume is skipped exactly when the processing flag is set. -/
theorem RTV_timerFire_skip (s : RTV.State) (hT : s.resumeTimer = true)
    (hP : s.isProcessing = true) :
    RTV.step s RTV.Ev.timerFire = ({ s with resumeTimer := false }, []) := by
  simp [RTV.step, hT, hP]

/-- A user stop of playback does not clear a scheduled resume: there is no
pending-cancellation flag in this surface. -/
theorem RTV_stopSpeak_resumeTimer (s : RTV.State) :
    (RTV.step s RTV.Ev.userStopSpeaking).1.resumeTimer = s.resumeTimer := rfl

/-- Playback end in `VoiceInterface` only clears the speaking flag: there is
no auto-resume of listening in this surface at all. -/
theorem VI_step_speakEnd_eq (s : VI.State) (hS : s.isSpeaking = true) :
    VI.step s VI.Ev.speakEnd = ({ s with isSpeaking := false }, []) := by
  simp [VI.step, hS]

theorem VI_speakEnd_conversation (s : VI.State) :
    (VI.step s VI.Ev.speakEnd).1.conversation = s.conversation := by
  simp only [VI.step]; split_ifs <;> rfl

theorem RTV_speakEnd_conversation (s : RTV.State) :
    (RTV.step s RTV.Ev.speakEnd).1.conversation = s.conversation := by
  simp only [RTV.step]; split_ifs <;> rfl

/-! ### Claims -/

/-- Claim C1, counterexample.  The claim states that starting capture while
the synthesizer is speaking is impossible.  It is not: `startListening`
checks only `isListening`/`isProcessing`, so after a successful answer is
being spoken a user click on the microphone button starts capture while
playback is still active — both `isListening` and `isSpeaking` end up true. -/
theorem c1_listen_while_speaking :
    (VI.run (VI.init "s")
      [VI.Ev.voicesLoaded, VI.Ev.userStart true, VI.Ev.final "hi",
       VI.Ev.captureEnd,
       VI.Ev.responseOk { resultsSummary := some "All done", summary := none },
       VI.Ev.userStart true]).1.isListening = true ∧
    (VI.run (VI.init "s")
      [VI.Ev.voicesLoaded, VI.Ev.userStart true, VI.Ev.final "hi",
       VI.Ev.captureEnd,
       VI.Ev.responseOk { resultsSummary := some "All done", summary := none },
       VI.Ev.userStart true]).1.isSpeaking = true := by
  constructor <;> decide

/-- Claim C1, amended.  `startListening` is a no-op while capture is active
or a request is processing (in both surfaces), but it does not consult the
speaking flag: from a state where the synthesizer is speaking and nothing
else is active, it starts capture, leaving capture and playback
simultaneously active. -/
theorem c1_start_guard :
    (∀ (s : VI.State) (m : Bool),
       s.isListening = true ∨ s.isProcessing = true →
       VI.step s (VI.Ev.userStart m) = (s, [])) ∧
    (∀ s : RTV.State,
       s.isListening = true ∨ s.isProcessing = true →
       RTV.step s RTV.Ev.userStart = (s, [])) ∧
    (∀ s : VI.State, s.isSpeaking = true → s.isListening = false →
       s.isProcessing = false →
       (VI.step s (VI.Ev.userStart true)).1.isListening = true ∧
       (VI.step s (VI.Ev.userStart true)).1.isSpeaking = true) := by
  refine ⟨?_, ?_, ?_⟩
  · intro s m h
    simp [VI.step, h]
  · intro s h
    simp [RTV.step, h]
  · intro s hS hL hP
    have hg : ¬(s.isListening = true ∨ s.isProcessing = true) := by
      rintro (hx | hx)
      · rw [hL] at hx; exact Bool.noConfusion hx
      · rw [hP] at hx; exact Bool.noConfusion hx
    simp only [VI.step]
    rw [if_neg hg, if_neg (by decide : ¬(true = false))]
    exact ⟨rfl, hS⟩

theorem c1_start_guard_witness :
    VI.step { VI.init "s" with isListening := true } (VI.Ev.userStart true) =
        ({ VI.init "s" with isListening := true }, []) ∧
    RTV.step { RTV.init "s" with isProcessing := true } RTV.Ev.userStart =
        ({ RTV.init "s" with isProcessing := true }, []) ∧
    ((VI.step { VI.init "s" with isSpeaking := true }
        (VI.Ev.userStart true)).1.isListening = true ∧
     (VI.step { VI.init "s" with isSpeaking := true }
        (VI.Ev.userStart true)).1.isSpeaking = true) :=
  ⟨c1_start_guard.1 _ true (Or.inl rfl),
   c1_start_guard.2.1 _ (Or.inr rfl),
   c1_start_guard.2.2 _ rfl rfl rfl⟩

/-- Claim C2, counterexample.  In `VoiceInterface` the playback-end event
does not schedule any transition: after a full successful cycle ending with
`speakEnd`, the controller is not listening and the complete command trace
contains only the initial user-click `startCapture` — no auto-resume ever
occurs in this surface. -/
theorem c2_no_auto_resume_in_voice_interface :
    (VI.run (VI.init "s")
      [VI.Ev.voicesLoaded, VI.Ev.userStart true, VI.Ev.final "hi",
       VI.Ev.captureEnd,
       VI.Ev.responseOk { resultsSummary := some "All done", summary := none },
       VI.Ev.speakEnd]).1.isListening = false ∧
    (VI.run (VI.init "s")
      [VI.Ev.voicesLoaded, VI.Ev.userStart true, VI.Ev.final "hi",
       VI.Ev.captureEnd,
       VI.Ev.responseOk { resultsSummary := some "All done", summary := none },
       VI.Ev.speakEnd]).2 =
      [Cmd.startCapture,
       Cmd.dispatch { task := "hi", session_id := "s", input_method := "voice"
                      conversation_context := some [], real_time := none
                      agents := ["researcher", "analyzer"] },
       Cmd.cancelSpeech, Cmd.speak "All done"] := by
  constructor <;> decide

/-- Claim C2, amended.  Only `RealTimeVoiceChat` auto-resumes: its playback
`onend` schedules a 500 ms timer whose callback is guarded solely by the
processing flag and the `startListening` guard — there is no
pending-cancellation flag, and a user stop of playback leaves a scheduled
resume in place.  In `VoiceInterface`, playback end merely clears the
speaking flag. -/
theorem c2_resume_behavior :
    (∀ s : VI.State, s.isSpeaking = true →
       VI.step s VI.Ev.speakEnd = ({ s with isSpeaking := false }, [])) ∧
    (∀ s : RTV.State, s.isSpeaking = true →
       RTV.step s RTV.Ev.speakEnd =
         ({ s with isSpeaking := false, resumeTimer := true }, [])) ∧
    (∀ s : RTV.State, s.resumeTimer = true → s.isProcessing = false →
       s.isListening = false →
       RTV.step s RTV.Ev.timerFire =
         ({ s with resumeTimer := false, isListening := true
                   transcript := "", error := "" },
          [Cmd.startCapture])) ∧
    (∀ s : RTV.State, s.resumeTimer = true → s.isProcessing = true →
       RTV.step s RTV.Ev.timerFire = ({ s with resumeTimer := false }, [])) ∧
    (∀ s : RTV.State,
       (RTV.step s RTV.Ev.userStopSpeaking).1.resumeTimer = s.resumeTimer) :=
  ⟨VI_step_speakEnd_eq, RTV_step_speakEnd_eq, RTV_timerFire_resume,
   RTV_timerFire_skip, RTV_stopSpeak_resumeTimer⟩

theorem c2_resume_behavior_witness :
    VI.step { VI.init "s" with isSpeaking := true } VI.Ev.speakEnd =
        ({ { VI.init "s" with isSpeaking := true } with isSpeaking := false }, []) ∧
    RTV.step { RTV.init "s" with isSpeaking := true } RTV.Ev.speakEnd =
        ({ { RTV.init "s" with isSpeaking := true } with
            isSpeaking := false, resumeTimer := true }, []) ∧
    RTV.step { RTV.init "s" with resumeTimer := true } RTV.Ev.timerFire =
        ({ { RTV.init "s" with resumeTimer := true } with
            resumeTimer := false, isListening := true
            transcript := "", error := "" }, [Cmd.startCapture]) ∧
    RTV.step { RTV.init "s" with resumeTimer := true, isProcessing := true }
        RTV.Ev.timerFire =
        ({ { RTV.init "s" with resumeTimer := true, isProcessing := true } with
            resumeTimer := false }, []) ∧
    (RTV.step { RTV.init "s" with resumeTimer := true }
        RTV.Ev.userStopSpeaking).1.resumeTimer =
      ({ RTV.init "s" with resumeTimer := true } : RTV.State).resumeTimer :=
  ⟨c2_resume_behavior.1 _ rfl,
   c2_resume_behavior.2.1 _ rfl,
   c2_resume_behavior.2.2.1 _ rfl rfl rfl,
   c2_resume_behavior.2.2.2.1 _ rfl rfl,
   c2_resume_behavior.2.2.2.2 _⟩

/-- Claim C3, counterexample.  In `VoiceInterface` the controller never
stops the capture adapter before dispatching: after a final transcript the
request is dispatched while `isListening` is still true and no `stopCapture`
command has been issued (the single-shot recognizer is left to end on its
own). -/
theorem c3_dispatch_without_stop :
    (VI.run (VI.init "s") [VI.Ev.userStart true, VI.Ev.final "hi"]).1.isListening
        = true ∧
    (VI.run (VI.init "s") [VI.Ev.userStart true, VI.Ev.final "hi"]).2 =
      [Cmd.startCapture,
       Cmd.dispatch { task := "hi", session_id := "s", input_method := "voice"
                      conversation_context := some [], real_time := none
                      agents := ["researcher", "analyzer"] }] ∧
    Cmd.stopCapture ∉
      (VI.run (VI.init "s") [VI.Ev.userStart true, VI.Ev.final "hi"]).2 := by
  refine ⟨by decide, by decide, by decide⟩

/-- Claim C3, amended.  For any sequence of interim transcripts followed by
one non-blank final transcript from the listening state, exactly one
dispatch is issued in both surfaces; `RealTimeVoiceChat` stops the capture
adapter before dispatching, but `VoiceInterface` dispatches without stopping
capture (its command trace for the cycle is exactly one `dispatch`, with
capture still flagged active). -/
theorem c3_dispatch_once :
    (∀ (s : RTV.State) (n : Nat) (t : String),
       s.isListening = true → s.isProcessing = false → jsTrimStr t ≠ "" →
       (RTV.run s (List.replicate n RTV.Ev.interim ++ [RTV.Ev.finalResult t])).2 =
         [Cmd.stopCapture, Cmd.dispatch (RTV.requestBody s.sessionId t)]) ∧
    (∀ (s : VI.State) (ts : List String) (t : String),
       s.isListening = true → s.captureFinalDone = false →
       jsTrimStr t = t → t ≠ "" →
       (VI.run s (ts.map VI.Ev.interim ++ [VI.Ev.final t])).2 =
         [Cmd.dispatch (VI.requestBody s.sessionId s.conversation t)] ∧
       (VI.run s (ts.map VI.Ev.interim ++ [VI.Ev.final t])).1.isListening
         = true) := by
  constructor
  · intro s n t hL hP ht
    rw [RTV_run_append, RTV_run_interims]
    simp [RTV.run, RTV_step_final_eq s t hL hP ht]
  · intro s ts t hL hF ht hne
    rw [VI_run_append, VI_run_interims ts s hL hF]
    have h1 := VI_step_final_eq
      { s with currentTranscript := ts.foldl (fun _ x => x) s.currentTranscript }
      t hL hF ht hne
    constructor
    · simp [VI.run, h1]
    · simp [VI.run, h1]
      exact hL

theorem c3_dispatch_once_witness :
    ((RTV.run { RTV.init "s" with isListening := true }
        (List.replicate 2 RTV.Ev.interim ++ [RTV.Ev.finalResult "hi"])).2 =
      [Cmd.stopCapture, Cmd.dispatch (RTV.requestBody "s" "hi")]) ∧
    ((VI.run { VI.init "s" with isListening := true }
        (["h", "hi"].map VI.Ev.interim ++ [VI.Ev.final "hi"])).2 =
      [Cmd.dispatch (VI.requestBody "s" [] "hi")] ∧
     (VI.run { VI.init "s" with isListening := true }
        (["h", "hi"].map VI.Ev.interim ++ [VI.Ev.final "hi"])).1.isListening
       = true) :=
  ⟨c3_dispatch_once.1 { RTV.init "s" with isListening := true } 2 "hi"
     rfl rfl (by decide),
   c3_dispatch_once.2 { VI.init "s" with isListening := true } ["h", "hi"] "hi"
     rfl rfl (by decide) (by decide)⟩

/-- Updating the placeholder entry by id turns the freshly appended log tail
into `[user entry, completed assistant entry]`, leaving older entries (whose
ids are smaller) untouched. -/
theorem VI_map_update_append (C : List VI.Entry) (nid : Nat)
    (hids : ∀ e ∈ C, e.id < nid) (txt newtxt : String) :
    ((C ++ ([{ id := nid, speaker := Speaker.user, text := txt
               processing := false },
             { id := nid + 1, speaker := Speaker.assistant
               text := "Processing your request...", processing := true }] :
              List VI.Entry)).map
       fun (e : VI.Entry) =>
         if e.id = nid + 1 then { e with text := newtxt, processing := false }
         else e) =
      C ++ [{ id := nid, speaker := Speaker.user, text := txt
              processing := false },
            { id := nid + 1, speaker := Speaker.assistant, text := newtxt
              processing := false }] := by
  rw [List.map_append]
  congr 1
  · induction C with
    | nil => rfl
    | cons a as ih =>
      simp only [List.map_cons]
      rw [if_neg (by have := hids a (List.mem_cons_self a as); omega)]
      rw [ih fun e he => hids e (List.mem_cons_of_mem a he)]
  · simp only [List.map_cons, List.map_nil]
    rw [if_neg (show ¬(nid = nid + 1) by omega)]
    simp

/-- Claim C4, counterexample.  In `RealTimeVoiceChat` a failed request is
spoken and displayed as a status error but is *not* appended to the
conversation log: after the failure the log still holds only the user
entry. -/
theorem c4_error_not_logged_rtv :
    (RTV.run (RTV.init "s")
      [RTV.Ev.userStart, RTV.Ev.finalResult "hi", RTV.Ev.captureEnd,
       RTV.Ev.responseErr "HTTP 500"]).1.conversation =
      [{ speaker := Speaker.user, text := "hi" }] ∧
    (RTV.run (RTV.init "s")
      [RTV.Ev.userStart, RTV.Ev.finalResult "hi", RTV.Ev.captureEnd,
       RTV.Ev.responseErr "HTTP 500"]).1.error =
      "Sorry, I encountered an error: HTTP 500" ∧
    (RTV.run (RTV.init "s")
      [RTV.Ev.userStart, RTV.Ev.finalResult "hi", RTV.Ev.captureEnd,
       RTV.Ev.responseErr "HTTP 500"]).1.isProcessing = false := by
  refine ⟨by decide, by decide, by decide⟩

/-- Claim C4, amended.  On request failure both surfaces speak the error
message and clear the processing flag (no stuck error state); but only
`VoiceInterface` also records the error as the Assistant entry of the cycle
(by updating the placeholder), while `RealTimeVoiceChat` leaves the
conversation log without any Assistant entry and only sets the status
error. -/
theorem c4_error_handling :
    (∀ (s : VI.State) (t m : String),
       s.isListening = true → s.captureFinalDone = false →
       s.pending = [] → jsTrimStr t = t → t ≠ "" → s.hasVoice = true →
       (∀ e ∈ s.conversation, e.id < s.nextId) →
       (VI.run s [VI.Ev.final t, VI.Ev.captureEnd,
          VI.Ev.responseErr m]).1.conversation =
         s.conversation ++
           [{ id := s.nextId, speaker := Speaker.user, text := t
              processing := false },
            { id := s.nextId + 1, speaker := Speaker.assistant
              text := "Sorry, I encountered an error: " ++ m
              processing := false }] ∧
       (VI.run s [VI.Ev.final t, VI.Ev.captureEnd,
          VI.Ev.responseErr m]).1.isProcessing = false ∧
       (VI.run s [VI.Ev.final t, VI.Ev.captureEnd, VI.Ev.responseErr m]).2 =
         [Cmd.dispatch (VI.requestBody s.sessionId s.conversation t),
          Cmd.cancelSpeech,
          Cmd.speak (cleanText ("Sorry, I encountered an error: " ++ m))]) ∧
    (∀ (s : RTV.State) (t m : String),
       s.isListening = true → s.isProcessing = false → s.pending = 0 →
       jsTrimStr t ≠ "" →
       (RTV.run s [RTV.Ev.finalResult t, RTV.Ev.captureEnd,
          RTV.Ev.responseErr m]).1.conversation =
         s.conversation ++ [{ speaker := Speaker.user, text := t }] ∧
       (RTV.run s [RTV.Ev.finalResult t, RTV.Ev.captureEnd,
          RTV.Ev.responseErr m]).1.isProcessing = false ∧
       (RTV.run s [RTV.Ev.finalResult t, RTV.Ev.captureEnd,
          RTV.Ev.responseErr m]).1.error =
         "Sorry, I encountered an error: " ++ m ∧
       (RTV.run s [RTV.Ev.finalResult t, RTV.Ev.captureEnd,
          RTV.Ev.responseErr m]).2 =
         [Cmd.stopCapture, Cmd.dispatch (RTV.requestBody s.sessionId t),
          Cmd.cancelSpeech,
          Cmd.speak ("Sorry, I encountered an error: " ++ m)]) := by
  constructor
  · intro s t m hL hF hpend ht hne hv hids
    have e1 := VI_step_final_eq s t hL hF ht hne
    refine ⟨?_, ?_, ?_⟩
    · simp only [VI.run, e1, VI_step_captureEnd_eq, hL, hpend,
        List.nil_append]
      refine (VI_responseErr_conversation _ m (s.nextId + 1) []
        (by simp [hpend])).trans ?_
      exact VI_map_update_append s.conversation s.nextId hids t _
    · simp only [VI.run, e1, VI_step_captureEnd_eq, hL, hpend,
        List.nil_append]
      exact VI_responseErr_isProcessing_of_pending _ m (s.nextId + 1) []
        (by simp [hpend])
    · simp only [VI.run, e1, VI_step_captureEnd_eq, hL, hpend,
        List.nil_append, List.append_nil, List.cons_append]
      exact congrArg
        (fun l => Cmd.dispatch (VI.requestBody s.sessionId s.conversation t) :: l)
        (VI_responseErr_cmds _ m (s.nextId + 1) [] (by simp [hpend]) hv)
  · intro s t m hL hP hpend ht
    have e1 := RTV_step_final_eq s t hL hP ht
    refine ⟨?_, ?_, ?_, ?_⟩
    · simp only [RTV.run, e1, RTV_step_captureEnd_eq, hL]
      exact RTV_responseErr_conversation _ m (by simp [hpend])
    · simp only [RTV.run, e1, RTV_step_captureEnd_eq, hL]
      exact RTV_responseErr_isProcessing _ m (by simp [hpend])
    · simp only [RTV.run, e1, RTV_step_captureEnd_eq, hL]
      exact RTV_responseErr_error _ m (by simp [hpend])
    · simp only [RTV.run, e1, RTV_step_captureEnd_eq, hL,
        List.nil_append, List.append_nil, List.cons_append]
      exact congrArg
        (fun l => Cmd.stopCapture :: Cmd.dispatch (RTV.requestBody s.sessionId t) :: l)
        (RTV_responseErr_cmds _ m (by simp [hpend]))

theorem c4_error_handling_witness :
    (VI.run { VI.init "s" with isListening := true, hasVoice := true }
       [VI.Ev.final "hi", VI.Ev.captureEnd,
        VI.Ev.responseErr "HTTP 500"]).1.isProcessing = false ∧
    (RTV.run { RTV.init "s" with isListening := true }
       [RTV.Ev.finalResult "hi", RTV.Ev.captureEnd,
        RTV.Ev.responseErr "HTTP 500"]).1.error =
      "Sorry, I encountered an error: " ++ "HTTP 500" :=
  ⟨(c4_error_handling.1
      { VI.init "s" with isListening := true, hasVoice := true } "hi" "HTTP 500"
      rfl rfl rfl (by decide) (by decide) rfl (by simp [VI.init])).2.1,
   (c4_error_handling.2
      { RTV.init "s" with isListening := true } "hi" "HTTP 500"
      rfl rfl rfl (by decide)).2.2.1⟩

/-- Claim C5, confirmed.  A full successful cycle — non-blank final
transcript `t`, backend success, successful playback — extends the
conversation log by exactly two entries in order: the user entry with text
`t`, then the assistant entry with the backend's answer text.  In
`VoiceInterface` the assistant entry is the completed placeholder; in
`RealTimeVoiceChat` both entries are appended directly. -/
theorem c5_round_trip :
    (∀ (s : VI.State) (t : String) (r : BackendResp),
       s.isListening = true → s.captureFinalDone = false →
       s.pending = [] → jsTrimStr t = t → t ≠ "" →
       (∀ e ∈ s.conversation, e.id < s.nextId) →
       (VI.run s [VI.Ev.final t, VI.Ev.captureEnd, VI.Ev.responseOk r,
          VI.Ev.speakEnd]).1.conversation =
         s.conversation ++
           [{ id := s.nextId, speaker := Speaker.user, text := t
              processing := false },
            { id := s.nextId + 1, speaker := Speaker.assistant
              text := VI.aiResponse r, processing := false }]) ∧
    (∀ (s : RTV.State) (t : String) (r : BackendResp),
       s.isListening = true → s.isProcessing = false → s.pending = 0 →
       jsTrimStr t ≠ "" →
       (RTV.run s [RTV.Ev.finalResult t, RTV.Ev.captureEnd,
          RTV.Ev.responseOk r, RTV.Ev.speakEnd]).1.conversation =
         s.conversation ++
           [{ speaker := Speaker.user, text := t },
            { speaker := Speaker.assistant, text := RTV.aiText r }]) := by
  constructor
  · intro s t r hL hF hpend ht hne hids
    have e1 := VI_step_final_eq s t hL hF ht hne
    simp only [VI.run, e1, VI_step_captureEnd_eq, hL, hpend,
      List.nil_append, VI_speakEnd_conversation]
    refine (VI_responseOk_conversation _ r (s.nextId + 1) []
      (by simp [hpend])).trans ?_
    exact VI_map_update_append s.conversation s.nextId hids t _
  · intro s t r hL hP hpend ht
    have e1 := RTV_step_final_eq s t hL hP ht
    simp only [RTV.run, e1, RTV_step_captureEnd_eq, hL,
      RTV_speakEnd_conversation]
    refine (RTV_responseOk_conversation _ r (by simp [hpend])).trans ?_
    simp

theorem c5_round_trip_witness :
    (VI.run { VI.init "s" with isListening := true, hasVoice := true }
       [VI.Ev.final "What is the weather", VI.Ev.captureEnd,
        VI.Ev.responseOk { resultsSummary := some "It is sunny.", summary := none },
        VI.Ev.speakEnd]).1.conversation =
      [{ id := 0, speaker := Speaker.user, text := "What is the weather"
         processing := false },
       { id := 1, speaker := Speaker.assistant, text := "It is sunny."
         processing := false }] ∧
    (RTV.run { RTV.init "s" with isListening := true }
       [RTV.Ev.finalResult "What is the weather", RTV.Ev.captureEnd,
        RTV.Ev.responseOk { resultsSummary := some "It is sunny.", summary := none },
        RTV.Ev.speakEnd]).1.conversation =
      [{ speaker := Speaker.user, text := "What is the weather" },
       { speaker := Speaker.assistant, text := "It is sunny." }] :=
  ⟨(c5_round_trip.1 { VI.init "s" with isListening := true, hasVoice := true }
      "What is the weather" { resultsSummary := some "It is sunny.", summary := none }
      rfl rfl rfl (by decide) (by decide) (by simp [VI.init])).trans (by decide),
   (c5_round_trip.2 { RTV.init "s" with isListening := true }
      "What is the weather" { resultsSummary := some "It is sunny.", summary := none }
      rfl rfl rfl (by decide)).trans (by decide)⟩

/-- Claim C6, confirmed.  At most one backend request is ever in flight in
either surface (invariant over all event sequences from the initial state),
and a final transcript arriving while `RealTimeVoiceChat` is processing is
ignored: the log and the in-flight count are unchanged and nothing is
dispatched (in `VoiceInterface` the single-shot recognizer cannot produce a
second final while processing, so the invariant holds there too). -/
theorem c6_single_flight :
    (∀ (sid : String) (es : List RTV.Ev),
       (RTV.run (RTV.init sid) es).1.pending ≤ 1) ∧
    (∀ (sid : String) (es : List VI.Ev),
       ((VI.run (VI.init sid) es).1.pending).length ≤ 1) ∧
    (∀ (s : RTV.State) (t : String), s.isProcessing = true →
       (RTV.step s (RTV.Ev.finalResult t)).1.conversation = s.conversation ∧
       (RTV.step s (RTV.Ev.finalResult t)).1.pending = s.pending ∧
       (RTV.step s (RTV.Ev.finalResult t)).2 = []) := by
  refine ⟨?_, ?_, fun s t hP => RTV_step_final_ignored s t hP⟩
  · intro sid es
    obtain ⟨i1, i2⟩ :=
      RTV_run_inv es (RTV.init sid) ⟨fun h => Bool.noConfusion h, fun _ => rfl⟩
    cases hb : (RTV.run (RTV.init sid) es).1.isProcessing
    · have := i2 hb; omega
    · have := i1 hb; omega
  · intro sid es
    obtain ⟨i1, i2⟩ :=
      VI_run_inv es (VI.init sid) ⟨fun h => Bool.noConfusion h, fun _ => rfl⟩
    cases hb : (VI.run (VI.init sid) es).1.isProcessing
    · rw [i2 hb]; decide
    · have := (i1 hb).1; omega

theorem c6_single_flight_witness :
    (RTV.run (RTV.init "s")
       [RTV.Ev.userStart, RTV.Ev.finalResult "hi"]).1.pending ≤ 1 ∧
    ((VI.run (VI.init "s")
       [VI.Ev.userStart true, VI.Ev.final "hi"]).1.pending).length ≤ 1 ∧
    ((RTV.step { RTV.init "s" with
                 isListening := true, isProcessing := true, pending := 1 }
        (RTV.Ev.finalResult "again")).1.conversation =
      ({ RTV.init "s" with
         isListening := true, isProcessing := true, pending := 1 } : RTV.State).conversation ∧
     (RTV.step { RTV.init "s" with
                 isListening := true, isProcessing := true, pending := 1 }
        (RTV.Ev.finalResult "again")).1.pending =
      ({ RTV.init "s" with
         isListening := true, isProcessing := true, pending := 1 } : RTV.State).pending ∧
     (RTV.step { RTV.init "s" with
                 isListening := true, isProcessing := true, pending := 1 }
        (RTV.Ev.finalResult "again")).2 = []) :=
  ⟨c6_single_flight.1 "s" [RTV.Ev.userStart, RTV.Ev.finalResult "hi"],
   c6_single_flight.2.1 "s" [VI.Ev.userStart true, VI.Ev.final "hi"],
   c6_single_flight.2.2
     { RTV.init "s" with
       isListening := true, isProcessing := true, pending := 1 } "again" rfl⟩

/-- Claim C7, counterexample.  The user stops everything (Clear, which
invokes both stop controls) while a request is Dispatching; the response
that later arrives is *not* discarded: the answer is still spoken (the
speaking flag turns on and a `speak` command is issued) and the processing
flag is cleared.  No abandonment mechanism exists; the log stays empty here
only because the cleared log no longer contains the placeholder entry. -/
theorem c7_response_after_stop_speaks :
    (VI.run (VI.init "s")
      [VI.Ev.voicesLoaded, VI.Ev.userStart true, VI.Ev.final "hi",
       VI.Ev.captureEnd, VI.Ev.clear,
       VI.Ev.responseOk { resultsSummary := some "All done"
                          summary := none }]).1.isSpeaking = true ∧
    Cmd.speak "All done" ∈
      (VI.run (VI.init "s")
        [VI.Ev.voicesLoaded, VI.Ev.userStart true, VI.Ev.final "hi",
         VI.Ev.captureEnd, VI.Ev.clear,
         VI.Ev.responseOk { resultsSummary := some "All done"
                            summary := none }]).2 ∧
    (VI.run (VI.init "s")
      [VI.Ev.voicesLoaded, VI.Ev.userStart true, VI.Ev.final "hi",
       VI.Ev.captureEnd, VI.Ev.clear,
       VI.Ev.responseOk { resultsSummary := some "All done"
                          summary := none }]).1.isProcessing = false := by
  refine ⟨by decide, by decide, by decide⟩

/-- Claim C7, amended.  Neither surface marks a pending request as
abandoned: whatever the user did in the meantime, a response that arrives
while a fetch is recorded in flight is processed normally — the processing
flag clears, the answer is spoken, and in `RealTimeVoiceChat` an assistant
entry is still appended to the (possibly cleared) log. -/
theorem c7_no_abandonment :
    (∀ (s : VI.State) (r : BackendResp) (pid : Nat) (rest : List Nat),
       s.pending = pid :: rest → s.hasVoice = true →
       jsTrimStr (VI.aiResponse r) ≠ "" →
       (VI.step s (VI.Ev.responseOk r)).1.isProcessing = false ∧
       (VI.step s (VI.Ev.responseOk r)).1.isSpeaking = true ∧
       (VI.step s (VI.Ev.responseOk r)).2 =
         [Cmd.cancelSpeech, Cmd.speak (cleanText (VI.aiResponse r))]) ∧
    (∀ (s : RTV.State) (r : BackendResp), ¬s.pending = 0 →
       jsTrimStr (RTV.aiText r) ≠ "" →
       (RTV.step s (RTV.Ev.responseOk r)).1.conversation =
         s.conversation ++
           [{ speaker := Speaker.assistant, text := RTV.aiText r }] ∧
       (RTV.step s (RTV.Ev.responseOk r)).1.isProcessing = false ∧
       (RTV.step s (RTV.Ev.responseOk r)).2 =
         [Cmd.cancelSpeech, Cmd.speak (RTV.aiText r)]) := by
  constructor
  · intro s r pid rest hp hv hjt
    exact ⟨VI_responseOk_isProcessing_of_pending s r pid rest hp,
           VI_responseOk_isSpeaking s r pid rest hp hv hjt,
           VI_responseOk_cmds s r pid rest hp hv hjt⟩
  · intro s r hp hjt
    exact ⟨RTV_responseOk_conversation s r hp,
           RTV_responseOk_isProcessing s r hp,
           RTV_responseOk_cmds s r hp hjt⟩

theorem c7_no_abandonment_witness :
    ((VI.step { VI.init "s" with
                isProcessing := true, hasVoice := true, pending := [1] }
        (VI.Ev.responseOk { resultsSummary := some "All done"
                            summary := none })).1.isProcessing = false ∧
     (VI.step { VI.init "s" with
                isProcessing := true, hasVoice := true, pending := [1] }
        (VI.Ev.responseOk { resultsSummary := some "All done"
                            summary := none })).1.isSpeaking = true ∧
     (VI.step { VI.init "s" with
                isProcessing := true, hasVoice := true, pending := [1] }
        (VI.Ev.responseOk { resultsSummary := some "All done"
                            summary := none })).2 =
       [Cmd.cancelSpeech,
        Cmd.speak (cleanText (VI.aiResponse
          { resultsSummary := some "All done", summary := none }))]) ∧
    ((RTV.step { RTV.init "s" with
        isProcessing := true, pending := 1 }
        (RTV.Ev.responseOk { resultsSummary := some "All done"
                             summary := none })).1.conversation =
       ({ RTV.init "s" with
          isProcessing := true, pending := 1 } : RTV.State).conversation ++
         [{ speaker := Speaker.assistant
            text := RTV.aiText { resultsSummary := some "All done"
                                 summary := none } }] ∧
     (RTV.step { RTV.init "s" with
        isProcessing := true, pending := 1 }
        (RTV.Ev.responseOk { resultsSummary := some "All done"
                             summary := none })).1.isProcessing = false ∧
     (RTV.step { RTV.init "s" with
        isProcessing := true, pending := 1 }
        (RTV.Ev.responseOk { resultsSummary := some "All done"
                             summary := none })).2 =
       [Cmd.cancelSpeech,
        Cmd.speak (RTV.aiText { resultsSummary := some "All done"
                                summary := none })]) :=
  ⟨c7_no_abandonment.1
     { VI.init "s" with
       isProcessing := true, hasVoice := true, pending := [1] }
     { resultsSummary := some "All done", summary := none } 1 [] rfl rfl
     (by decide),
   c7_no_abandonment.2
     { RTV.init "s" with
        isProcessing := true, pending := 1 }
     { resultsSummary := some "All done", summary := none }
     (by decide) (by decide)⟩

/-- Claim C8, counterexample.  `RealTimeVoiceChat.speakText` hands the text
to the synthesizer unmodified: the spoken text keeps its markdown markers
and newline, differing from what the sanitizer would produce. -/
theorem c8_rtv_unsanitized :
    RTV.speakText (RTV.init "s") "**bold**\nline" =
      ({ RTV.init "s" with isSpeaking := true },
       [Cmd.cancelSpeech, Cmd.speak "**bold**\nline"]) ∧
    cleanText "**bold**\nline" = "bold. line" ∧
    "**bold**\nline" ≠ cleanText "**bold**\nline" := by
  refine ⟨by decide, by decide, by decide⟩

/-- Claim C8, amended.  Only `VoiceInterface.speakText` sanitizes: it hands
`cleanText t` (markdown bold/italic/code/header markers stripped, newline
runs turned into sentence breaks, whitespace collapsed and trimmed — the
output never contains a newline) to the synthesizer, while
`RealTimeVoiceChat.speakText` hands the input text over unmodified. -/
theorem c8_sanitization :
    (∀ t : String, '\n' ∉ (cleanText t).data) ∧
    cleanText "**bold** and *ital* and `code`" = "bold and ital and code" ∧
    cleanText "# Title\nLine one\nLine two" = "Title. Line one. Line two" ∧
    (∀ (s : VI.State) (t : String), s.hasVoice = true → jsTrimStr t ≠ "" →
       VI.speakText s t =
         ({ s with isSpeaking := true },
          [Cmd.cancelSpeech, Cmd.speak (cleanText t)])) ∧
    (∀ (s : RTV.State) (t : String), jsTrimStr t ≠ "" →
       RTV.speakText s t =
         ({ s with isSpeaking := true },
          [Cmd.cancelSpeech, Cmd.speak t])) := by
  refine ⟨cleanText_no_newline, by decide, by decide, ?_, ?_⟩
  · intro s t hv ht
    unfold VI.speakText
    rw [if_pos ⟨hv, ht⟩]
  · intro s t ht
    unfold RTV.speakText
    rw [if_pos ht]

theorem c8_sanitization_witness :
    '\n' ∉ (cleanText "a\nb").data ∧
    VI.speakText { VI.init "s" with hasVoice := true } "**hello**" =
      ({ { VI.init "s" with hasVoice := true } with isSpeaking := true },
       [Cmd.cancelSpeech, Cmd.speak (cleanText "**hello**")]) ∧
    RTV.speakText (RTV.init "s") "**hello**" =
      ({ RTV.init "s" with isSpeaking := true },
       [Cmd.cancelSpeech, Cmd.speak "**hello**"]) :=
  ⟨c8_sanitization.1 "a\nb",
   c8_sanitization.2.2.2.1 { VI.init "s" with hasVoice := true } "**hello**"
     rfl (by decide),
   c8_sanitization.2.2.2.2 (RTV.init "s") "**hello**" (by decide)⟩

/-- Claim C9, counterexample.  A `RealTimeVoiceChat` dispatch carries no
`conversation_context` at all: its context is `{ session_id, input_method:
voice, real_time: true }`. -/
theorem c9_rtv_no_context :
    (RTV.step { RTV.init "s" with isListening := true }
       (RTV.Ev.finalResult "hello")).2 =
      [Cmd.stopCapture,
       Cmd.dispatch { task := "hello", session_id := "s"
                      input_method := "voice", conversation_context := none
                      real_time := some true
                      agents := ["researcher", "analyzer"] }] ∧
    (RTV.requestBody "s" "hello").conversation_context = none := by
  refine ⟨by decide, by decide⟩

/-- Claim C9, amended.  A `VoiceInterface` dispatch body is `{ task, context
{ session_id, input_method: voice, conversation_context: last ≤ 4 prior
entries as role/content pairs }, agents }`; a `RealTimeVoiceChat` body
instead carries `real_time: true` and no conversation context. -/
theorem c9_request_body :
    (∀ (s : VI.State) (t : String),
       s.isListening = true → s.captureFinalDone = false →
       jsTrimStr t = t → t ≠ "" →
       (VI.step s (VI.Ev.final t)).2 =
         [Cmd.dispatch
           { task := t, session_id := s.sessionId, input_method := "voice"
             conversation_context :=
               some ((lastN 4 s.conversation).map fun e =>
                 { role := if e.speaker = Speaker.user then "user"
                           else "assistant"
                   content := e.text })
             real_time := none
             agents := ["researcher", "analyzer"] }]) ∧
    (∀ l : List VI.Entry, (lastN 4 l).length ≤ 4) ∧
    (∀ (s : RTV.State) (t : String),
       s.isListening = true → s.isProcessing = false → jsTrimStr t ≠ "" →
       (RTV.step s (RTV.Ev.finalResult t)).2 =
         [Cmd.stopCapture,
          Cmd.dispatch
            { task := t, session_id := s.sessionId, input_method := "voice"
              conversation_context := none, real_time := some true
              agents := ["researcher", "analyzer"] }]) := by
  refine ⟨?_, ?_, ?_⟩
  · intro s t hL hF ht hne
    exact congrArg Prod.snd (VI_step_final_eq s t hL hF ht hne)
  · intro l
    simp only [lastN, List.length_drop]
    omega
  · intro s t hL hP ht
    exact congrArg Prod.snd (RTV_step_final_eq s t hL hP ht)

theorem c9_request_body_witness :
    (VI.step { VI.init "s" with isListening := true } (VI.Ev.final "hi")).2 =
      [Cmd.dispatch
        { task := "hi", session_id := "s", input_method := "voice"
          conversation_context := some [], real_time := none
          agents := ["researcher", "analyzer"] }] ∧
    (lastN 4 ([] : List VI.Entry)).length ≤ 4 ∧
    (RTV.step { RTV.init "s" with isListening := true }
       (RTV.Ev.finalResult "hi")).2 =
      [Cmd.stopCapture,
       Cmd.dispatch
         { task := "hi", session_id := "s", input_method := "voice"
           conversation_context := none, real_time := some true
           agents := ["researcher", "analyzer"] }] :=
  ⟨(c9_request_body.1 { VI.init "s" with isListening := true } "hi"
      rfl rfl (by decide) (by decide)).trans (by decide),
   c9_request_body.2.1 [],
   c9_request_body.2.2 { RTV.init "s" with isListening := true } "hi"
     rfl rfl (by decide)⟩

/-- Claim C10, confirmed.  When the response body has neither a non-empty
`results.summary` nor a non-empty top-level `summary` string, the answer is
the fixed fallback text ("I processed your request successfully." in
`VoiceInterface`, with "!" in `RealTimeVoiceChat`); the answer is never the
empty string, and the fallback is recorded in the conversation log and
spoken. -/
theorem c10_fallback_answer :
    (∀ r : BackendResp, VI.aiResponse r ≠ "" ∧ RTV.aiText r ≠ "") ∧
    (∀ r : BackendResp,
       r.resultsSummary.getD "" = "" → r.summary.getD "" = "" →
       VI.aiResponse r = "I processed your request successfully." ∧
       RTV.aiText r = "I processed your request successfully!") ∧
    (∀ (s : VI.State) (r : BackendResp) (pid : Nat) (rest : List Nat),
       s.pending = pid :: rest → s.hasVoice = true →
       r.resultsSummary.getD "" = "" → r.summary.getD "" = "" →
       (VI.step s (VI.Ev.responseOk r)).1.conversation =
         s.conversation.map (fun (e : VI.Entry) =>
           if e.id = pid then
             { e with text := "I processed your request successfully."
                      processing := false }
           else e) ∧
       (VI.step s (VI.Ev.responseOk r)).2 =
         [Cmd.cancelSpeech,
          Cmd.speak "I processed your request successfully."]) ∧
    (∀ (s : RTV.State) (r : BackendResp), ¬s.pending = 0 →
       r.resultsSummary.getD "" = "" → r.summary.getD "" = "" →
       (RTV.step s (RTV.Ev.responseOk r)).1.conversation =
         s.conversation ++
           [{ speaker := Speaker.assistant
              text := "I processed your request successfully!" }] ∧
       (RTV.step s (RTV.Ev.responseOk r)).2 =
         [Cmd.cancelSpeech,
          Cmd.speak "I processed your request successfully!"]) := by
  refine ⟨?_, ?_, ?_, ?_⟩
  · intro r
    exact ⟨aiResponse_ne_empty r, aiText_ne_empty r⟩
  · intro r h1 h2
    constructor
    · unfold VI.aiResponse
      rw [jsOr_of_getD_empty _ _ h1, jsOr_of_getD_empty _ _ h2]
    · unfold RTV.aiText
      rw [jsOr_of_getD_empty _ _ h1, jsOr_of_getD_empty _ _ h2]
  · intro s r pid rest hp hv h1 h2
    have ha : VI.aiResponse r = "I processed your request successfully." := by
      unfold VI.aiResponse
      rw [jsOr_of_getD_empty _ _ h1, jsOr_of_getD_empty _ _ h2]
    constructor
    · rw [VI_responseOk_conversation s r pid rest hp, ha]
    · rw [VI_responseOk_cmds s r pid rest hp hv (by rw [ha]; decide), ha]
      rw [show cleanText "I processed your request successfully." =
            "I processed your request successfully." from by decide]
  · intro s r hp h1 h2
    have ha : RTV.aiText r = "I processed your request successfully!" := by
      unfold RTV.aiText
      rw [jsOr_of_getD_empty _ _ h1, jsOr_of_getD_empty _ _ h2]
    constructor
    · rw [RTV_responseOk_conversation s r hp, ha]
    · rw [RTV_responseOk_cmds s r hp (by rw [ha]; decide), ha]

theorem c10_fallback_answer_witness :
    (VI.aiResponse { resultsSummary := none, summary := none } ≠ "" ∧
     RTV.aiText { resultsSummary := none, summary := none } ≠ "") ∧
    (VI.aiResponse { resultsSummary := none, summary := some "" } =
       "I processed your request successfully." ∧
     RTV.aiText { resultsSummary := none, summary := some "" } =
       "I processed your request successfully!") ∧
    ((VI.step { VI.init "s" with
         isProcessing := true, hasVoice := true, pending := [1] }
        (VI.Ev.responseOk { resultsSummary := none
                            summary := none })).2 =
       [Cmd.cancelSpeech,
        Cmd.speak "I processed your request successfully."]) ∧
    ((RTV.step { RTV.init "s" with
         isProcessing := true, pending := 1 }
        (RTV.Ev.responseOk { resultsSummary := none
                             summary := none })).2 =
       [Cmd.cancelSpeech,
        Cmd.speak "I processed your request successfully!"]) :=
  ⟨c10_fallback_answer.1 { resultsSummary := none, summary := none },
   c10_fallback_answer.2.1 { resultsSummary := none, summary := some "" }
     rfl rfl,
   (c10_fallback_answer.2.2.1 { VI.init "s" with
       isProcessing := true, hasVoice := true, pending := [1] }
     { resultsSummary := none, summary := none } 1 [] rfl rfl rfl rfl).2,
   (c10_fallback_answer.2.2.2 { RTV.init "s" with
       isProcessing := true, pending := 1 }
     { resultsSummary := none, summary := none } (by decide) rfl rfl).2⟩
